import Mathlib

/-!
Verification development for the PiRemote repository: a shallow embedding of
the roster/failover logic, the in-band channel-switch parsing, the
serial-to-network forwarding, the audio relay legs, and the power-session
lifecycle, together with theorems settling the frozen specification claims.

Source files embedded: src/client.py, src/server.py, src/audio.py,
src/src/piremote-client.py, src/client/client.py.
-/

namespace PiRemote

/-! ## Endpoint roster -/

/-- Embeds Python sequence subscription `l[i]` for a nonnegative index
(as produced by the code's digit parsing and modular arithmetic): the value at
position `i` when `i < len(l)`, and an `IndexError` (modelled as `none`)
otherwise. -/
def pyIndex {α : Type} (l : List α) (i : Nat) : Option α := l[i]?

/-- Embeds the roster-indexing step of `SwitchRadio`
(src/src/piremote-client.py line 142): `trx_list[trx_index]`. The Python code
performs a plain subscript, with no modulo; an index past the end raises
`IndexError`. -/
def selectExplicit {α : Type} (entries : List α) (i : Nat) : Option α :=
  pyIndex entries i

/-- Embeds `RadioBridge._next_trx` (src/client.py lines 141-145):
`self.current_trx_index = (self.current_trx_index + 1) % len(self.trx_list)`. -/
def nextTrx (n i : Nat) : Nat := (i + 1) % n

/-- Iterating `nextTrx` k times, i.e. k successive `advance()` calls of the
roster. -/
def advanceIter (n : Nat) : Nat → Nat → Nat
  | 0, i => i
  | Nat.succ k, i => nextTrx n (advanceIter n k i)

theorem advanceIter_eq (n i : Nat) (hi : i < n) :
    ∀ k, advanceIter n k i = (i + k) % n := by
  intro k
  induction k with
  | zero =>
    show i = (i + 0) % n
    rw [Nat.add_zero, Nat.mod_eq_of_lt hi]
  | succ k ih =>
    show nextTrx n (advanceIter n k i) = (i + (k + 1)) % n
    rw [ih, nextTrx, Nat.mod_add_mod, ← Nat.add_assoc]

theorem advanceIter_lt (n i : Nat) (hn : 0 < n) (hi : i < n) (k : Nat) :
    advanceIter n k i < n := by
  rw [advanceIter_eq n i hi k]
  exact Nat.mod_lt _ hn

/-- The list of roster indices visited by the 1st through n-th `advance()`
calls starting from index `i`. -/
def advanceVisits (n i : Nat) : List Nat :=
  (List.range n).map (fun k => advanceIter n (k + 1) i)

theorem advanceVisits_nodup (n i : Nat) (_hn : 0 < n) (hi : i < n) :
    (advanceVisits n i).Nodup := by
  refine List.Nodup.map_on ?_ (List.nodup_range n)
  intro a ha b hb hab
  rw [List.mem_range] at ha hb
  rw [advanceIter_eq n i hi, advanceIter_eq n i hi] at hab
  have hab2 : (i + 1) + a ≡ (i + 1) + b [MOD n] := by
    have h1 : i + (a + 1) = (i + 1) + a := by omega
    have h2 : i + (b + 1) = (i + 1) + b := by omega
    rw [h1, h2] at hab
    exact hab
  have := Nat.ModEq.add_left_cancel' (i + 1) hab2
  have ha2 : a % n = a := Nat.mod_eq_of_lt ha
  have hb2 : b % n = b := Nat.mod_eq_of_lt hb
  rw [Nat.ModEq, ha2, hb2] at this
  exact this

theorem advanceVisits_perm (n i : Nat) (hn : 0 < n) (hi : i < n) :
    (advanceVisits n i).Perm (List.range n) := by
  have hsub : advanceVisits n i ⊆ List.range n := by
    intro x hx
    rw [advanceVisits, List.mem_map] at hx
    obtain ⟨k, _, hk⟩ := hx
    rw [List.mem_range, ← hk]
    exact advanceIter_lt n i hn hi (k + 1)
  have hlen : (List.range n).length ≤ (advanceVisits n i).length := by
    rw [advanceVisits, List.length_map, List.length_range]
  exact ((advanceVisits_nodup n i hn hi).subperm hsub).perm_of_length_le hlen

/-- C4: for every non-empty roster of n entries and every starting index,
n successive `advance()` calls visit every entry exactly once (no skips,
no duplicates) and the (n+1)-th visits the starting entry again: advance is
a cyclic successor with period n. (The (n+1)-th visit returning to the start
is equivalent to the n-fold iterate being the identity.) -/
theorem C4_advance_cycles (n i : Nat) (hn : 0 < n) (hi : i < n) :
    (advanceVisits n i).Nodup
    ∧ (∀ j, j < n → j ∈ advanceVisits n i)
    ∧ advanceIter n n i = i := by
  refine ⟨advanceVisits_nodup n i hn hi, ?_, ?_⟩
  · intro j hj
    have hperm := advanceVisits_perm n i hn hi
    exact hperm.symm.subset (List.mem_range.mpr hj)
  · rw [advanceIter_eq n i hi n, Nat.add_mod_right, Nat.mod_eq_of_lt hi]

/-- Witness for C4 at n = 3, i = 1. -/
theorem C4_advance_cycles_wit :
    (0 < 3 ∧ 1 < 3)
    ∧ ((advanceVisits 3 1).Nodup
       ∧ (∀ j, j < 3 → j ∈ advanceVisits 3 1)
       ∧ advanceIter 3 3 1 = 1) :=
  ⟨⟨by decide, by decide⟩, C4_advance_cycles 3 1 (by decide) (by decide)⟩

/-- C1 counterexample: the claim states that `selectExplicit(i)` followed by
`current()` yields `entries[i mod n]`, clamping out-of-range indices via
modulo. On a two-entry roster with i = 3 the code raises `IndexError`
(modelled `none`) while the claim demands `entries[3 mod 2] = entries[1]`. -/
theorem C1_no_modulo_cex :
    selectExplicit ["r0:1", "r1:2"] 3 = none
    ∧ (["r0:1", "r1:2"] : List String)[3 % 2]? = some ("r1:2")
    ∧ selectExplicit ["r0:1", "r1:2"] 3 ≠ (["r0:1", "r1:2"] : List String)[3 % 2]? := by
  refine ⟨rfl, rfl, ?_⟩
  intro h
  simp [selectExplicit, pyIndex] at h

/-- C1 amended: `selectExplicit(i)` (the subscript `trx_list[trx_index]` in
`SwitchRadio`) returns `entries[i]` when `i < n` and fails with `IndexError`
when `i ≥ n`; no modulo clamping takes place. -/
theorem C1_explicit_select_bounds {α : Type} (entries : List α) (i : Nat) :
    (∀ h : i < entries.length, selectExplicit entries i = some (entries.get ⟨i, h⟩))
    ∧ (entries.length ≤ i → selectExplicit entries i = none) := by
  constructor
  · intro h
    simp [selectExplicit, pyIndex, List.getElem?_eq_getElem h]
  · intro h
    simp [selectExplicit, pyIndex, List.getElem?_eq_none_iff.mpr h]

/-- Witness for C1 amended, on a two-entry roster at indices 1 and 5. -/
theorem C1_explicit_select_bounds_wit :
    selectExplicit ["r0:1", "r1:2"] 1 = some (("r1:2" : String))
    ∧ selectExplicit ["r0:1", "r1:2"] 5 = none :=
  ⟨(C1_explicit_select_bounds ["r0:1", "r1:2"] 1).1 (by decide),
   (C1_explicit_select_bounds ["r0:1", "r1:2"] 5).2 (by decide)⟩

/-! ## RadioBridge connection supervisor (src/client.py `RadioBridge.run`) -/

/-- Outcome of one iteration of the outer loop of `RadioBridge.run`
(src/client.py lines 79-139): the roster entry fails to parse as host:port
(line 89); the TCP connect raises timeout / refused / OSError (line 128);
the connection is established and later ends by a zero-length read
(line 115) or by a socket error during the exchange (line 124); or another
exception escapes the connection block (line 133). -/
inductive ConnOutcome where
  | invalidFormat
  | connectFail
  | connEndedPeerClosed
  | connEndedSockError
  | otherError
deriving DecidableEq, Repr

/-- Embeds line 107 of src/client.py, executed right after a successful
connect: `self.current_trx_index = 0`. The previous index is discarded. -/
def onConnectSuccess (_idx : Nat) : Nat := 0

/-- One iteration of the outer loop of `RadioBridge.run` over the roster
index, returning the index for the next iteration together with the seconds
slept before it (`time.sleep(2)` after a connect failure, `time.sleep(1)`
after a generic error, none otherwise). On the connected paths the index was
already reset by `onConnectSuccess` and no `_next_trx` call happens when the
connection ends. -/
def bridgeIter (n idx : Nat) : ConnOutcome → Nat × Nat
  | ConnOutcome.invalidFormat => (nextTrx n idx, 0)
  | ConnOutcome.connectFail => (nextTrx n idx, 2)
  | ConnOutcome.connEndedPeerClosed => (onConnectSuccess idx, 0)
  | ConnOutcome.connEndedSockError => (onConnectSuccess idx, 0)
  | ConnOutcome.otherError => (idx, 1)

/-- The endpoint attempted by an iteration that starts at roster index `idx`:
`trx = self.trx_list[self.current_trx_index]` (src/client.py line 85). -/
def attemptedEndpoint (trxList : List String) (idx : Nat) : Option String :=
  pyIndex trxList idx

/-- C2 counterexample: the claim asserts that after an established connection
ends the same endpoint is retried on the next cycle. On the roster
["r0:1", "r1:2"] with the connection established at index 1, the index is
reset to 0 on connect, so the next cycle attempts entry 0, not the endpoint
that had been connected. -/
theorem C2_same_endpoint_cex :
    (bridgeIter 2 1 ConnOutcome.connEndedPeerClosed).1 = 0
    ∧ attemptedEndpoint ["r0:1", "r1:2"] 1 = some ("r1:2")
    ∧ attemptedEndpoint ["r0:1", "r1:2"]
        ((bridgeIter 2 1 ConnOutcome.connEndedPeerClosed).1) = some ("r0:1")
    ∧ attemptedEndpoint ["r0:1", "r1:2"]
        ((bridgeIter 2 1 ConnOutcome.connEndedPeerClosed).1)
      ≠ attemptedEndpoint ["r0:1", "r1:2"] 1 := by
  refine ⟨rfl, rfl, rfl, ?_⟩
  intro h
  simp [attemptedEndpoint, pyIndex, bridgeIter, onConnectSuccess] at h

/-- C2 amended: a connect failure advances the roster index by one modulo n
and sleeps 2 seconds (a malformed roster entry also advances, without the
sleep); when an established connection ends (zero-length read or socket
error) the roster is not advanced, but the index was reset to 0 at
connect time, so the next cycle attempts the first configured entry — the
endpoint that had been connected is retried only if it sat at index 0. -/
theorem C2_advance_on_connect_fail (n idx : Nat) (trxList : List String)
    (h : trxList ≠ []) :
    bridgeIter n idx ConnOutcome.connectFail = ((idx + 1) % n, 2)
    ∧ bridgeIter n idx ConnOutcome.invalidFormat = ((idx + 1) % n, 0)
    ∧ bridgeIter n idx ConnOutcome.connEndedPeerClosed = (0, 0)
    ∧ bridgeIter n idx ConnOutcome.connEndedSockError = (0, 0)
    ∧ attemptedEndpoint trxList
        ((bridgeIter trxList.length idx ConnOutcome.connEndedPeerClosed).1)
      = some (trxList.head h) := by
  refine ⟨rfl, rfl, rfl, rfl, ?_⟩
  cases trxList with
  | nil => exact absurd rfl h
  | cons a l => simp [attemptedEndpoint, pyIndex, bridgeIter, onConnectSuccess]

/-- Witness for C2 amended at n = 2, idx = 1, roster ["r0:1", "r1:2"]. -/
theorem C2_advance_on_connect_fail_wit :
    bridgeIter 2 1 ConnOutcome.connectFail = ((1 + 1) % 2, 2)
    ∧ bridgeIter 2 1 ConnOutcome.invalidFormat = ((1 + 1) % 2, 0)
    ∧ bridgeIter 2 1 ConnOutcome.connEndedPeerClosed = (0, 0)
    ∧ bridgeIter 2 1 ConnOutcome.connEndedSockError = (0, 0)
    ∧ attemptedEndpoint ["r0:1", "r1:2"]
        ((bridgeIter (["r0:1", "r1:2"] : List String).length 1
          ConnOutcome.connEndedPeerClosed).1)
      = some ((["r0:1", "r1:2"] : List String).head (by decide)) :=
  C2_advance_on_connect_fail 2 1 ["r0:1", "r1:2"] (by decide)

/-- C9: whenever `RadioBridge` establishes a TCP connection successfully it
resets the roster index to 0 (src/client.py line 107); consequently, after
any later disconnect of the established connection, the next attempt targets
the first configured endpoint, whatever endpoint had been connected. -/
theorem C9_reset_to_first (trxList : List String) (idx : Nat)
    (h : trxList ≠ []) (o : ConnOutcome)
    (ho : o = ConnOutcome.connEndedPeerClosed ∨ o = ConnOutcome.connEndedSockError) :
    onConnectSuccess idx = 0
    ∧ (bridgeIter trxList.length idx o).1 = 0
    ∧ attemptedEndpoint trxList ((bridgeIter trxList.length idx o).1)
      = some (trxList.head h) := by
  have hhead : attemptedEndpoint trxList 0 = some (trxList.head h) := by
    cases trxList with
    | nil => exact absurd rfl h
    | cons a l => simp [attemptedEndpoint, pyIndex]
  rcases ho with ho | ho <;> subst ho <;> exact ⟨rfl, rfl, hhead⟩

/-- Witness for C9 at roster ["r0:1", "r1:2"], idx = 1, peer-closed ending. -/
theorem C9_reset_to_first_wit :
    onConnectSuccess 1 = 0
    ∧ (bridgeIter (["r0:1", "r1:2"] : List String).length 1
        ConnOutcome.connEndedPeerClosed).1 = 0
    ∧ attemptedEndpoint ["r0:1", "r1:2"]
        ((bridgeIter (["r0:1", "r1:2"] : List String).length 1
          ConnOutcome.connEndedPeerClosed).1)
      = some ((["r0:1", "r1:2"] : List String).head (by decide)) :=
  C9_reset_to_first ["r0:1", "r1:2"] 1 (by decide)
    ConnOutcome.connEndedPeerClosed (Or.inl rfl)

/-! ## ChannelCommandParser (src/src/piremote-client.py lines 93-102, 134-148)

The code applies `fnmatch.fnmatch(str(data), ...)` where `data` is a bytes
object, so the matched text is the Python repr `b'<payload>'`. For payloads
of printable ASCII without backslash or quote characters the repr is the
payload surrounded by a `b` and two single quotes, which the embedding
models explicitly; this wrapper neither creates nor destroys occurrences of
the space-hash-digit-space token. -/

/-- The single-quote character, written via its code point. -/
def sq : Char := Char.ofNat 39

/-- Embeds Python `str(data)` for a bytes object whose payload is printable
ASCII without backslash or quote: the repr `b` + quote + payload + quote. -/
def pyReprAscii (s : List Char) : List Char :=
  'b' :: sq :: (s ++ [sq])

/-- Holds when the fnmatch pattern fragment space, hash, one ASCII digit,
space begins at the head of the list. -/
def startsWithToken : List Char → Bool
  | ' ' :: '#' :: d :: ' ' :: _ => d.isDigit
  | _ => false

/-- Embeds the fnmatch test of src/src/piremote-client.py line 99:
the glob `* #[0-9] *` matches the whole string exactly when a space, hash,
single ASCII digit, space sequence occurs somewhere in it (the surrounding
stars absorb everything else). -/
def hasSwitchToken : List Char → Bool
  | [] => false
  | c :: rest => startsWithToken (c :: rest) || hasSwitchToken rest

/-- Embeds `data.split("#", 1)[1]` (src/src/piremote-client.py line 141):
everything after the first hash; an `IndexError` (modelled `none`) when the
string has no hash. -/
def splitAfterFirstHash : List Char → Option (List Char)
  | [] => none
  | c :: rest => if c = '#' then some rest else splitAfterFirstHash rest

/-- Embeds `(...).split(" ", 1)[0]` (same line): the chunk up to the first
space. -/
def firstChunk (s : List Char) : List Char :=
  s.takeWhile (fun c => c != ' ')

/-- Accumulates a decimal digit list into a number. -/
def digitsToNat (s : List Char) : Nat :=
  s.foldl (fun acc c => 10 * acc + (c.toNat - 48)) 0

/-- Embeds Python `int(chunk)` on the extracted chunk: the decimal value
when the chunk is a non-empty run of ASCII digits, a `ValueError`
(modelled `none`) otherwise. -/
def parseInt (s : List Char) : Option Nat :=
  if !s.isEmpty && s.all Char.isDigit then some (digitsToNat s) else none

/-- Embeds the index computation of `SwitchRadio`
(src/src/piremote-client.py line 141):
`int((data.split("#", 1)[1]).split(" ", 1)[0])`. -/
def parseSwitchIndex (s : List Char) : Option Nat :=
  match splitAfterFirstHash s with
  | none => none
  | some rest => parseInt (firstChunk rest)

/-- Embeds the inspection step of `CtrlTCPClient.run` (lines 99-100) composed
with the parsing in `SwitchRadio`: `none` when the fnmatch pattern does not
match (no switch request); `some r` when it matches and `SwitchRadio` is
invoked, where `r` is the parsed roster index (`none` inside means the
`int` conversion raised `ValueError`). Both the match and the parse operate
on `str(data)`, the repr of the received bytes. -/
def inspect (s : List Char) : Option (Option Nat) :=
  if hasSwitchToken (pyReprAscii s) then some (parseSwitchIndex (pyReprAscii s))
  else none

/-- Decides whether the second list starts with the first. -/
def startsWithSeq : List Char → List Char → Bool
  | [], _ => true
  | _ :: _, [] => false
  | p :: ps, c :: cs => p == c && startsWithSeq ps cs

/-- Decides whether the pattern occurs contiguously inside the list; used to
state the containment hypothesis of claim C3. -/
def containsSeq (pat : List Char) : List Char → Bool
  | [] => startsWithSeq pat []
  | c :: cs => startsWithSeq pat (c :: cs) || containsSeq pat cs

theorem hasSwitchToken_of_token (x y : List Char) (d : Char)
    (hd : d.isDigit = true) :
    hasSwitchToken (x ++ ' ' :: '#' :: d :: ' ' :: y) = true := by
  induction x with
  | nil => simp [hasSwitchToken, startsWithToken, hd]
  | cons c t ih => simp [hasSwitchToken, ih]

theorem splitAfterFirstHash_append (x r : List Char) (hx : '#' ∉ x) :
    splitAfterFirstHash (x ++ '#' :: r) = some r := by
  induction x with
  | nil => simp [splitAfterFirstHash]
  | cons c t ih =>
    rw [List.mem_cons, not_or] at hx
    rw [List.cons_append, splitAfterFirstHash,
      if_neg (fun h => hx.1 h.symm)]
    exact ih hx.2

/-- C3 counterexample: the claim states that `inspect` returns a switch
request with index 3 for every buffer containing the token space-hash-3-space.
The buffer space-hash-1-space-hash-3-space contains that token, yet the code
parses the index from the text after the FIRST hash of the buffer and
returns index 1. -/
theorem C3_first_hash_cex :
    containsSeq [' ', '#', '3', ' '] [' ', '#', '1', ' ', '#', '3', ' '] = true
    ∧ inspect [' ', '#', '1', ' ', '#', '3', ' '] = some (some 1)
    ∧ inspect [' ', '#', '1', ' ', '#', '3', ' '] ≠ some (some 3) := by
  decide

/-- C3 amended: `inspect` returns a switch request for a buffer containing
the space-hash-digit-space token, and the index returned is parsed from the
text following the first hash of the buffer — so it is 3 for buffers
containing the hash-3 token whose first hash is the token's hash; buffers
containing only hash-3-0, a bare hash, or hash-space-3 produce no request
(single digit, whitespace-bounded token only). -/
theorem C3_token_match :
    (∀ a b : List Char, '#' ∉ a →
        inspect (a ++ ' ' :: '#' :: '3' :: ' ' :: b) = some (some 3))
    ∧ inspect [' ', '#', '3', '0', ' '] = none
    ∧ inspect ['#'] = none
    ∧ inspect [' ', '#', ' ', '3', ' '] = none := by
  refine ⟨?_, by decide, by decide, by decide⟩
  intro a b ha
  have hr : pyReprAscii (a ++ ' ' :: '#' :: '3' :: ' ' :: b)
      = ('b' :: sq :: a) ++ ' ' :: '#' :: '3' :: ' ' :: (b ++ [sq]) := by
    simp [pyReprAscii]
  have htok :
      hasSwitchToken (pyReprAscii (a ++ ' ' :: '#' :: '3' :: ' ' :: b)) = true := by
    rw [hr]
    exact hasSwitchToken_of_token _ _ '3' (by decide)
  have hr2 : pyReprAscii (a ++ ' ' :: '#' :: '3' :: ' ' :: b)
      = (('b' :: sq :: a) ++ [' ']) ++ '#' :: ('3' :: ' ' :: (b ++ [sq])) := by
    simp [pyReprAscii]
  have hnh : '#' ∉ (('b' :: sq :: a) ++ [' ']) := by
    intro hmem
    simp only [List.mem_append, List.mem_cons, List.mem_singleton,
      List.not_mem_nil] at hmem
    rcases hmem with (h | h | h) | h
    · exact absurd h (by decide)
    · exact absurd h (by decide)
    · exact ha h
    · exact absurd h (by decide)
  have hsplit :
      splitAfterFirstHash (pyReprAscii (a ++ ' ' :: '#' :: '3' :: ' ' :: b))
        = some ('3' :: ' ' :: (b ++ [sq])) := by
    rw [hr2]
    exact splitAfterFirstHash_append _ _ hnh
  rw [inspect, if_pos htok, parseSwitchIndex, hsplit]
  rfl

/-- Witness for C3 amended at a = [], b = []: the buffer consisting of
exactly the token space-hash-3-space yields a switch request with index 3. -/
theorem C3_token_match_wit :
    '#' ∉ ([] : List Char)
    ∧ inspect [' ', '#', '3', ' '] = some (some 3) :=
  ⟨by decide, C3_token_match.1 [] [] (by decide)⟩

/-! ## SerialToNetLink (src/client.py lines 48-57, src/server.py lines 22-29) -/

/-- Result of one `SerialToNet.data_received` call: the socket reference
after the call, and the `sendall` invocation performed, recorded as the
socket it was called on together with the full byte buffer passed to it
(`sendall` either delivers the whole buffer in order or raises). -/
structure DataRecvResult where
  socketAfter : Option Nat
  sendCall : Option (Nat × List Nat)
deriving DecidableEq, Repr

/-- Embeds `SerialToNet.data_received` (src/client.py lines 48-57; the
src/server.py version at lines 22-29 is identical): under the lock, when no
socket is set nothing happens; when a socket is set, `sendall(data)` is
invoked with the whole buffer, and if it raises, the socket reference is
cleared. `sendOk` stands for whether the send raised. The class stores no
other state: a buffer arriving with no socket is never retained. -/
def dataReceived (sock : Option Nat) (sendOk : Bool) (buf : List Nat) :
    DataRecvResult :=
  match sock with
  | none => ⟨none, none⟩
  | some s => if sendOk then ⟨some s, some (s, buf)⟩ else ⟨none, some (s, buf)⟩

/-- C8: a byte buffer submitted while no socket is active is a no-op — the
state is unchanged and no send is attempted, so nothing is buffered for
later delivery — and while a socket is active the full buffer is handed to
exactly one `sendall` call (a reliable, ordered send) on that socket. -/
theorem C8_no_socket_noop_full_forward :
    (∀ (sendOk : Bool) (buf : List Nat),
        dataReceived none sendOk buf = ⟨none, none⟩)
    ∧ (∀ (s : Nat) (sendOk : Bool) (buf : List Nat),
        (dataReceived (some s) sendOk buf).sendCall = some (s, buf)) := by
  constructor
  · intro sendOk buf
    rfl
  · intro s sendOk buf
    cases sendOk <;> rfl

/-! ## PowerSession (src/client.py `toggle_power` lines 209-261 and the
variant src/client/client.py `toggle_power` lines 225-270) -/

/-- Observable side-effect state of the client process: the GPIO power line,
the serial device, the two subsystems, and the `powered_on` flag. -/
structure SysState where
  power : Bool
  serialOpen : Bool
  bridgeRunning : Bool
  audioRunning : Bool
  poweredOn : Bool
deriving DecidableEq, Repr

/-- The fully-off state: power de-asserted, serial closed, no subsystem
running, `powered_on` false. -/
def offState : SysState :=
  ⟨false, false, false, false, false⟩

/-- Which step of the power-on sequence fails, if any. -/
inductive PowerOnOutcome where
  | serialOpenFail
  | bridgeStartFail
  | audioStartFail
  | success
deriving DecidableEq, Repr

/-- Embeds `Pwr` (src/client.py line 152) and `set_power`
(src/client/client.py line 220): drive the GPIO power line. -/
def pwr (b : Bool) (s : SysState) : SysState :=
  { s with power := b }

/-- Embeds `ser_close` (src/client.py lines 157-174): stop the reader and
close the serial device. -/
def serCloseStep (s : SysState) : SysState :=
  { s with serialOpen := false }

/-- Embeds the power-on branch of `toggle_power` (src/client.py lines
212-245), by failure scenario: `Pwr(True)`; `ser_open()` (which calls
`ser_close` itself on failure) and on failure `Pwr(False)` and return;
otherwise start `RadioBridge` then `AudioClient`, and on an exception from
either start run the cleanup block (stop whichever subsystems were set,
`ser_close()`, `Pwr(False)`); on full success set `powered_on`. -/
def togglePowerOn (f : PowerOnOutcome) (s : SysState) : SysState :=
  let s1 := pwr true s
  match f with
  | PowerOnOutcome.serialOpenFail => pwr false (serCloseStep s1)
  | PowerOnOutcome.bridgeStartFail =>
      let s2 := { s1 with serialOpen := true }
      let s3 := { s2 with bridgeRunning := false, audioRunning := false }
      pwr false (serCloseStep s3)
  | PowerOnOutcome.audioStartFail =>
      let s2 := { s1 with serialOpen := true }
      let s3 := { s2 with bridgeRunning := true }
      let s4 := { s3 with bridgeRunning := false, audioRunning := false }
      pwr false (serCloseStep s4)
  | PowerOnOutcome.success =>
      { s1 with serialOpen := true, bridgeRunning := true,
                audioRunning := true, poweredOn := true }

/-- Embeds the power-on branch of the variant `toggle_power`
(src/client/client.py lines 229-257): `set_power(True)`; on a serial open
failure the function logs and returns with no further action; there is no
try/except around the bridge and audio starts, so a failure there
propagates, leaving whatever had been started running; on success all
subsystems run. -/
def togglePowerOnAlt (f : PowerOnOutcome) (s : SysState) : SysState :=
  let s1 := pwr true s
  match f with
  | PowerOnOutcome.serialOpenFail => s1
  | PowerOnOutcome.bridgeStartFail => { s1 with serialOpen := true }
  | PowerOnOutcome.audioStartFail =>
      { s1 with serialOpen := true, bridgeRunning := true }
  | PowerOnOutcome.success =>
      { s1 with serialOpen := true, bridgeRunning := true,
                audioRunning := true, poweredOn := true }

/-- C5 counterexample: the claim requires every failed power-on attempt to
de-assert the power line and fully unwind. In the cited variant
src/client/client.py, a serial-open failure merely returns: the power line
stays asserted (and an audio start failure leaves the bridge running), so
the claim is false on that cited code. -/
theorem C5_variant_power_cex :
    (togglePowerOnAlt PowerOnOutcome.serialOpenFail offState).power = true
    ∧ togglePowerOnAlt PowerOnOutcome.serialOpenFail offState ≠ offState
    ∧ (togglePowerOnAlt PowerOnOutcome.audioStartFail offState).bridgeRunning
      = true := by
  refine ⟨rfl, ?_, rfl⟩
  intro h
  have := congrArg SysState.power h
  simp [togglePowerOnAlt, pwr, offState] at this

/-- C5 amended: in src/client.py `toggle_power`, if any step of power-on
fails (serial device open, bridge start, or audio start) every partial side
effect is reversed — subsystems stopped, serial device closed, power line
de-asserted — and the session remains Off, so a later toggle can retry;
the variant src/client/client.py lacks this unwinding (see the
counterexample). -/
theorem C5_unwind_main_client (f : PowerOnOutcome)
    (hf : f ≠ PowerOnOutcome.success) :
    togglePowerOn f offState = offState := by
  cases f with
  | serialOpenFail => rfl
  | bridgeStartFail => rfl
  | audioStartFail => rfl
  | success => exact absurd rfl hf

/-- Witness for C5 amended at the audio-start failure scenario. -/
theorem C5_unwind_main_client_wit :
    PowerOnOutcome.audioStartFail ≠ PowerOnOutcome.success
    ∧ togglePowerOn PowerOnOutcome.audioStartFail offState = offState :=
  ⟨by decide, C5_unwind_main_client PowerOnOutcome.audioStartFail (by decide)⟩

/-! ## AudioRelay legs (src/audio.py) -/

/-- A UDP peer address as Python's `(host, port)` tuple from `recvfrom`. -/
structure UdpAddr where
  ip : String
  port : Nat
deriving DecidableEq, Repr

/-- One event observed by a datagram receive loop: the 1-second receive
timeout fired, or a datagram arrived from a source address. The payload is
the full datagram as sent; the receive call truncates it. -/
inductive UdpEvent where
  | timeout
  | datagram (payload : List Nat) (src : UdpAddr)

/-- The buffer size passed to `recvfrom` in both receive loops
(src/audio.py lines 114 and 249): a UDP datagram longer than this is
silently truncated to its first 4096 bytes by the call; the rest of the
datagram is discarded by the kernel. -/
def rxBufSize : Nat := 4096

/-- Result of one iteration of `AudioClient._rx_loop`: whether the Opus
decoder was invoked, the PCM frame written to the speaker (if any), and
whether the loop continues to the next iteration. -/
structure RxStepResult where
  decodeCalled : Bool
  played : Option (List Nat)
  continues : Bool
deriving DecidableEq, Repr

/-- Embeds one iteration of `AudioClient._rx_loop` (src/audio.py lines
107-130): `recvfrom(4096)` yields the truncated payload and the source
address (the address is never used); an empty payload continues; otherwise
the truncated payload is decoded — a decode exception is caught, logged and
the loop continues — and a non-empty PCM result is written to the speaker.
The decoder is a parameter (`none` models a raised `OpusError`). -/
def clientRxStep (decode : List Nat → Option (List Nat)) :
    UdpEvent → RxStepResult
  | UdpEvent.timeout => ⟨false, none, true⟩
  | UdpEvent.datagram payload _ =>
      if (payload.take rxBufSize).isEmpty then ⟨false, none, true⟩
      else
        match decode (payload.take rxBufSize) with
        | none => ⟨true, none, true⟩
        | some pcm =>
            if pcm.isEmpty then ⟨true, none, true⟩ else ⟨true, some pcm, true⟩

theorem clientRxStep_datagram (decode : List Nat → Option (List Nat))
    (payload : List Nat) (a : UdpAddr) :
    clientRxStep decode (UdpEvent.datagram payload a)
      = if (payload.take rxBufSize).isEmpty then ⟨false, none, true⟩
        else
          match decode (payload.take rxBufSize) with
          | none => ⟨true, none, true⟩
          | some pcm =>
              if pcm.isEmpty then ⟨true, none, true⟩
              else ⟨true, some pcm, true⟩ := rfl

theorem clientRxStep_continues (decode : List Nat → Option (List Nat))
    (ev : UdpEvent) : (clientRxStep decode ev).continues = true := by
  cases ev with
  | timeout => rfl
  | datagram payload a =>
    rw [clientRxStep_datagram]
    by_cases h : (payload.take rxBufSize).isEmpty = true
    · rw [if_pos h]
    · rw [if_neg h]
      split
      · rfl
      · split <;> rfl

theorem clientRxStep_decodeCalled (decode : List Nat → Option (List Nat))
    (payload : List Nat) (a : UdpAddr) (h : payload.take rxBufSize ≠ []) :
    (clientRxStep decode (UdpEvent.datagram payload a)).decodeCalled = true := by
  rw [clientRxStep_datagram, if_neg (by simpa using h)]
  split
  · rfl
  · split <;> rfl

theorem clientRxStep_truncates (decode : List Nat → Option (List Nat))
    (payload : List Nat) (a : UdpAddr) :
    clientRxStep decode (UdpEvent.datagram payload a)
      = clientRxStep decode (UdpEvent.datagram (payload.take rxBufSize) a) := by
  rw [clientRxStep_datagram, clientRxStep_datagram, List.take_take,
    Nat.min_self]

theorem take_rxBufSize_ne_nil (payload : List Nat)
    (hlen : rxBufSize < payload.length) : payload.take rxBufSize ≠ [] := by
  rw [Ne, List.take_eq_nil_iff]
  push_neg
  constructor
  · norm_num [rxBufSize]
  · intro h
    rw [h] at hlen
    norm_num [rxBufSize] at hlen

/-- C6 counterexample: the claim states that a datagram larger than the
4096-byte ceiling is rejected without being decoded. A 4097-byte datagram is
instead truncated by `recvfrom(4096)` and its 4096-byte head IS handed to
the decoder. -/
theorem C6_oversize_decoded_cex :
    rxBufSize < (List.replicate 4097 (0 : Nat)).length
    ∧ (clientRxStep (fun _ => none)
        (UdpEvent.datagram (List.replicate 4097 (0 : Nat)) ⟨"10.0.0.9", 7⟩)).decodeCalled
      = true := by
  have hlen : rxBufSize < (List.replicate 4097 (0 : Nat)).length := by
    rw [List.length_replicate]
    norm_num [rxBufSize]
  exact ⟨hlen, clientRxStep_decodeCalled _ _ _ (take_rxBufSize_ne_nil _ hlen)⟩

/-- C6 amended: no receive-loop event — timeout, empty datagram, oversized
datagram, decode failure — ever makes the iteration stop the loop; and a
datagram larger than the 4096-byte receive buffer is not rejected: the
iteration behaves exactly as on the truncated 4096-byte head, and that head
is passed to the decoder. -/
theorem C6_truncate_and_continue :
    (∀ (decode : List Nat → Option (List Nat)) (ev : UdpEvent),
        (clientRxStep decode ev).continues = true)
    ∧ (∀ (decode : List Nat → Option (List Nat)) (payload : List Nat)
        (a : UdpAddr),
        clientRxStep decode (UdpEvent.datagram payload a)
          = clientRxStep decode (UdpEvent.datagram (payload.take rxBufSize) a))
    ∧ (∀ (decode : List Nat → Option (List Nat)) (payload : List Nat)
        (a : UdpAddr), rxBufSize < payload.length →
        (clientRxStep decode (UdpEvent.datagram payload a)).decodeCalled
          = true) :=
  ⟨clientRxStep_continues, clientRxStep_truncates,
   fun decode payload a hlen =>
     clientRxStep_decodeCalled decode payload a
       (take_rxBufSize_ne_nil payload hlen)⟩

/-- Witness for C6 amended at a 4097-byte all-zero datagram and an
always-failing decoder. -/
theorem C6_truncate_and_continue_wit :
    rxBufSize < (List.replicate 4097 (0 : Nat)).length
    ∧ (clientRxStep (fun _ => none)
        (UdpEvent.datagram (List.replicate 4097 (0 : Nat)) ⟨"10.0.0.8", 9⟩)).decodeCalled
      = true :=
  ⟨by rw [List.length_replicate]; norm_num [rxBufSize],
   C6_truncate_and_continue.2.2 (fun _ => none) (List.replicate 4097 (0 : Nat))
     ⟨"10.0.0.8", 9⟩ (by rw [List.length_replicate]; norm_num [rxBufSize])⟩

/-- C10: the PCM frame an `AudioClient._rx_loop` iteration plays (and the
whole outcome of the iteration) depends only on the datagram payload, never
on the sender address: the socket is bound to all interfaces and `addr` from
`recvfrom` is discarded, so two senders transmitting the same payload
produce identical played output — no sender filtering or authentication. -/
theorem C10_addr_independent :
    ∀ (decode : List Nat → Option (List Nat)) (payload : List Nat)
      (a1 a2 : UdpAddr),
      clientRxStep decode (UdpEvent.datagram payload a1)
        = clientRxStep decode (UdpEvent.datagram payload a2) := by
  intro decode payload a1 a2
  rfl

/-- Embeds one iteration of `AudioServer._tx_loop` (src/audio.py lines
242-271), the server receive leg in Learned role: `recvfrom(4096)` yields
the truncated payload and the source address; an empty payload continues
without touching the peer; otherwise the stored client address is
overwritten with the source address under the lock (`some src`, whatever it
held before), then the payload is decoded and a non-empty PCM frame is
played to the radio. Returns the client address after the iteration and the
frame played. -/
def serverTxStep (decode : List Nat → Option (List Nat))
    (client : Option UdpAddr) : UdpEvent → Option UdpAddr × Option (List Nat)
  | UdpEvent.timeout => (client, none)
  | UdpEvent.datagram payload src =>
      if (payload.take rxBufSize).isEmpty then (client, none)
      else
        match decode (payload.take rxBufSize) with
        | none => (some src, none)
        | some pcm => (some src, if pcm.isEmpty then none else some pcm)

theorem serverTxStep_datagram (decode : List Nat → Option (List Nat))
    (client : Option UdpAddr) (payload : List Nat) (src : UdpAddr) :
    serverTxStep decode client (UdpEvent.datagram payload src)
      = if (payload.take rxBufSize).isEmpty then (client, none)
        else
          match decode (payload.take rxBufSize) with
          | none => (some src, none)
          | some pcm => (some src, if pcm.isEmpty then none else some pcm) :=
  rfl

theorem serverTxStep_learns (decode : List Nat → Option (List Nat))
    (client : Option UdpAddr) (payload : List Nat) (src : UdpAddr)
    (h : payload.take rxBufSize ≠ []) :
    (serverTxStep decode client (UdpEvent.datagram payload src)).1 = some src := by
  rw [serverTxStep_datagram, if_neg (by simpa using h)]
  split <;> rfl

/-- Embeds the send-target computation of `AudioServer._rx_loop`
(src/audio.py lines 284-289): when a client address has been learned, the
encoded packet goes to `(client_ip, self.rx_port)` — the configured
response port, not the port the client sent from; with no learned client
nothing is sent. -/
def serverRxSendTarget (rxPort : Nat) (client : Option UdpAddr) :
    Option (String × Nat) :=
  match client with
  | none => none
  | some a => some (a.ip, rxPort)

/-- C7: in Learned role, after the server receive leg accepts a datagram
from address A and then one from address B, the stored peer is exactly B
(overwritten, not merged), every subsequent send-leg transmission targets
B's IP on the configured response port, and that target is not B's inbound
source port whenever the two ports differ. -/
theorem C7_learned_peer_overwrite (decode : List Nat → Option (List Nat))
    (client0 : Option UdpAddr) (pA pB : List Nat) (A B : UdpAddr)
    (rxPort : Nat) (_hA : pA.take rxBufSize ≠ []) (hB : pB.take rxBufSize ≠ []) :
    (serverTxStep decode
        (serverTxStep decode client0 (UdpEvent.datagram pA A)).1
        (UdpEvent.datagram pB B)).1 = some B
    ∧ serverRxSendTarget rxPort
        (serverTxStep decode
          (serverTxStep decode client0 (UdpEvent.datagram pA A)).1
          (UdpEvent.datagram pB B)).1 = some (B.ip, rxPort)
    ∧ (B.port ≠ rxPort →
        serverRxSendTarget rxPort
          (serverTxStep decode
            (serverTxStep decode client0 (UdpEvent.datagram pA A)).1
            (UdpEvent.datagram pB B)).1 ≠ some (B.ip, B.port)) := by
  have h2 : (serverTxStep decode
      (serverTxStep decode client0 (UdpEvent.datagram pA A)).1
      (UdpEvent.datagram pB B)).1 = some B :=
    serverTxStep_learns decode _ pB B hB
  refine ⟨h2, ?_, ?_⟩
  · rw [h2]
    rfl
  · intro hp hcon
    rw [h2] at hcon
    have h3 : ((B.ip, rxPort) : String × Nat) = (B.ip, B.port) := by
      simpa [serverRxSendTarget] using hcon
    exact hp (congrArg Prod.snd h3).symm

/-- Witness for C7: one-byte datagrams from two distinct addresses, response
port 5002. -/
theorem C7_learned_peer_overwrite_wit :
    (serverTxStep (fun _ => none)
        (serverTxStep (fun _ => none) none
          (UdpEvent.datagram [1] ⟨"10.0.0.1", 4001⟩)).1
        (UdpEvent.datagram [2] ⟨"10.0.0.2", 4002⟩)).1
      = some ⟨"10.0.0.2", 4002⟩
    ∧ serverRxSendTarget 5002
        (serverTxStep (fun _ => none)
          (serverTxStep (fun _ => none) none
            (UdpEvent.datagram [1] ⟨"10.0.0.1", 4001⟩)).1
          (UdpEvent.datagram [2] ⟨"10.0.0.2", 4002⟩)).1
      = some (("10.0.0.2" : String), 5002)
    ∧ ((4002 : Nat) ≠ 5002 →
        serverRxSendTarget 5002
          (serverTxStep (fun _ => none)
            (serverTxStep (fun _ => none) none
              (UdpEvent.datagram [1] ⟨"10.0.0.1", 4001⟩)).1
            (UdpEvent.datagram [2] ⟨"10.0.0.2", 4002⟩)).1
        ≠ some (("10.0.0.2" : String), 4002)) :=
  C7_learned_peer_overwrite (fun _ => none) none [1] [2]
    ⟨"10.0.0.1", 4001⟩ ⟨"10.0.0.2", 4002⟩ 5002 (by decide) (by decide)

end PiRemote
